import Mathlib

/-!
Verification of the boolean combinator layer of ProcessScheduler
(`processscheduler/first_order_logic.py`) and of the fixed-duration task
validation described in the specification and exercised by
`test/test_task.py`.

The z3 boolean expressions (`BoolRef`) manipulated by the combinators are
deeply embedded: `And`/`Or` take a list of sub-formulas exactly as z3's
python API does, and `evalB` gives their classical boolean semantics under
an assignment of boolean values to atomic variables.

Python exceptions are modelled with `Except String`; each combinator takes
the active context and returns the (possibly failing) result together with
the context after the call, so that both the registration side effect and
the absence of mutation on failure are visible in the model.
-/

namespace ProcessScheduler

/-- A z3 boolean expression (`BoolRef`).  `var` stands for an atomic
boolean decision variable; `and`/`or` are the n-ary z3 `And`/`Or` over a
list of sub-formulas; the remaining constructors mirror z3's `Not`, `Xor`,
`Implies` and `If`. -/
inductive BoolRef : Type where
  | var : Nat → BoolRef
  | and : List BoolRef → BoolRef
  | or : List BoolRef → BoolRef
  | not : BoolRef → BoolRef
  | xor : BoolRef → BoolRef → BoolRef
  | implies : BoolRef → BoolRef → BoolRef
  | ite : BoolRef → BoolRef → BoolRef → BoolRef

/-- Classical boolean semantics of a `BoolRef` under an assignment `σ` of
the atomic variables. -/
def evalB (σ : Nat → Bool) : BoolRef → Bool
  | .var n => σ n
  | .and l => l.attach.all fun b => evalB σ b.1
  | .or l => l.attach.any fun b => evalB σ b.1
  | .not b => ! evalB σ b
  | .xor a b => evalB σ a != evalB σ b
  | .implies a b => ! evalB σ a || evalB σ b
  | .ite c t e => bif evalB σ c then evalB σ t else evalB σ e
decreasing_by
all_goals simp_wf
all_goals try (have h := List.sizeOf_lt_of_mem b.2)
all_goals omega

/-- Modelled from the spec: `constraint.py` is not under `src/`.  Per §3,
a `Constraint` object derives one or more boolean formulas at construction
(`get_z3_assertions` returns them) and carries a diagnostic flag recording
whether it was created from an assertion
(`set_created_from_assertion`). -/
structure Constraint : Type where
  z3_assertions : List BoolRef
  created_from_assertion : Bool

/-- A python value passed to a combinator: either a raw `BoolRef`, a
`Constraint` object, or anything else (`other`), which the normalization
step rejects with a `TypeError`. -/
inductive PyVal : Type where
  | boolref : BoolRef → PyVal
  | constraint : Constraint → PyVal
  | other : PyVal

/-- Modelled from the spec: `context.py` is not under `src/`.  Per §4.1 the
active context holds an accumulating list of boolean formulas, and
`append_assertion` appends to it.  Only the formula list is modelled here;
the task/resource registries play no part in the combinator layer. -/
structure Context : Type where
  z3_assertions : List BoolRef

/-- `append_z3_assertion`: appends one formula at the end of the context's
accumulated formula list (spec §4.1, `append_assertion`). -/
def Context.append_z3_assertion (ctx : Context) (a : BoolRef) : Context :=
  ⟨ctx.z3_assertions ++ [a]⟩

/-- `_get_assertions` (first_order_logic.py:28-38): a raw `BoolRef` is
returned as is (here: as a one-element list, so that the z3 `And` applied
to it in `not_`/`xor_` is uniformly `BoolRef.and`), a `Constraint` yields
its `get_z3_assertions` list, and anything else raises `TypeError`.
The `set_created_from_assertion` diagnostic flag mutation on the
constraint object (line 34) touches only the constraint, never the
context, and no claim refers to it, so it is not threaded here. -/
def get_assertions : PyVal → Except String (List BoolRef)
  | .boolref b => .ok [b]
  | .constraint c => .ok c.z3_assertions
  | .other => .error "constraint must either be a Constraint or BoolRef instance"

/-- `_constraints_to_list_of_assertions` (first_order_logic.py:41-50):
normalizes every element of the list with `_get_assertions`, extending
with list results and appending single `BoolRef`s; a `TypeError` raised on
any element aborts the whole call. -/
def constraints_to_list_of_assertions : List PyVal → Except String (List BoolRef)
  | [] => .ok []
  | c :: rest => do
    let assertions ← get_assertions c
    let tail ← constraints_to_list_of_assertions rest
    pure (assertions ++ tail)

/-- `not_` (first_order_logic.py:57-61): `Not(And(_get_assertions(c)))`,
appended to the active context and returned. -/
def not_ (constraint : PyVal) (ctx : Context) :
    Except String BoolRef × Context :=
  match get_assertions constraint with
  | .error e => (.error e, ctx)
  | .ok assertions =>
    let not_asst := BoolRef.not (BoolRef.and assertions)
    (.ok not_asst, ctx.append_z3_assertion not_asst)

/-- `or_` (first_order_logic.py:64-71): z3 `Or` of the normalized list,
appended to the active context and returned. -/
def or_ (list_of_constraints : List PyVal) (ctx : Context) :
    Except String BoolRef × Context :=
  match constraints_to_list_of_assertions list_of_constraints with
  | .error e => (.error e, ctx)
  | .ok assertions =>
    let or_asst := BoolRef.or assertions
    (.ok or_asst, ctx.append_z3_assertion or_asst)

/-- `and_` (first_order_logic.py:74-81): z3 `And` of the normalized list,
appended to the active context and returned. -/
def and_ (list_of_constraints : List PyVal) (ctx : Context) :
    Except String BoolRef × Context :=
  match constraints_to_list_of_assertions list_of_constraints with
  | .error e => (.error e, ctx)
  | .ok assertions =>
    let and_asst := BoolRef.and assertions
    (.ok and_asst, ctx.append_z3_assertion and_asst)

/-- `xor_` (first_order_logic.py:84-102): first checks that the list has
exactly 2 elements, raising `TypeError` otherwise; then builds
`Xor(And(_get_assertions(c1)), And(_get_assertions(c2)))`, appends it to
the active context and returns it. -/
def xor_ (list_of_constraints : List PyVal) (ctx : Context) :
    Except String BoolRef × Context :=
  match list_of_constraints with
  | [constraint_1, constraint_2] =>
    match get_assertions constraint_1 with
    | .error e => (.error e, ctx)
    | .ok a1 =>
      match get_assertions constraint_2 with
      | .error e => (.error e, ctx)
      | .ok a2 =>
        let xor_asst := BoolRef.xor (BoolRef.and a1) (BoolRef.and a2)
        (.ok xor_asst, ctx.append_z3_assertion xor_asst)
  | _ =>
    (.error "You list size must be 2. Be sure you have 2 constraints in the list.",
      ctx)

/-- `implies` (first_order_logic.py:108-123): the condition is a raw
`BoolRef` used as is; the consequence list is normalized and conjoined;
`Implies(condition, And(...))` is appended to the active context and
returned. -/
def implies (condition : BoolRef)
    (consequence_list_of_constraints : List PyVal) (ctx : Context) :
    Except String BoolRef × Context :=
  match constraints_to_list_of_assertions consequence_list_of_constraints with
  | .error e => (.error e, ctx)
  | .ok assertions =>
    let implies_asst := BoolRef.implies condition (BoolRef.and assertions)
    (.ok implies_asst, ctx.append_z3_assertion implies_asst)

/-- `if_then_else` (first_order_logic.py:129-147): the condition is a raw
`BoolRef` used as is; both branch lists are normalized (then-branch first,
as python evaluates the arguments of `If` left to right) and conjoined;
`If(condition, And(then), And(else))` is appended to the active context
and returned. -/
def if_then_else (condition : BoolRef)
    (then_list_of_constraints : List PyVal)
    (else_list_of_constraints : List PyVal) (ctx : Context) :
    Except String BoolRef × Context :=
  match constraints_to_list_of_assertions then_list_of_constraints with
  | .error e => (.error e, ctx)
  | .ok then_assertions =>
    match constraints_to_list_of_assertions else_list_of_constraints with
    | .error e => (.error e, ctx)
    | .ok else_assertions =>
      let ite_asst :=
        BoolRef.ite condition (BoolRef.and then_assertions)
          (BoolRef.and else_assertions)
      (.ok ite_asst, ctx.append_z3_assertion ite_asst)

/-- A python numeric argument: an integer, or a numeric value that is not
an `int` (such as a float). -/
inductive PyNum : Type where
  | int : Int → PyNum
  | nonint : PyNum
deriving DecidableEq, Repr

/-- A fixed-duration task's validated attributes. -/
structure FixedDurationTask : Type where
  name : String
  duration : Int
  work_amount : Int
deriving DecidableEq, Repr

/-- Modelled from the spec: `task.py` is not under `src/`; only
`test/test_task.py` exercises it.  Per §4.2, `FixedDurationTask(name,
duration, work_amount=0)` requires the duration to be a positive integer,
failing with a `TypeError` on a non-integer, zero or negative value, and
requires `work_amount`, when given, to be a non-negative integer,
failing otherwise; on success the task is constructed. -/
def mkFixedDurationTask (name : String) (duration : PyNum)
    (work_amount : PyNum) : Except String FixedDurationTask :=
  match duration with
  | .nonint => .error "duration must be a strictly positive integer"
  | .int d =>
    if d < 1 then .error "duration must be a strictly positive integer"
    else
      match work_amount with
      | .nonint => .error "work_amount must be a non-negative integer"
      | .int w =>
        if w < 0 then .error "work_amount must be a non-negative integer"
        else .ok ⟨name, d, w⟩

/-! ### Semantic helper lemmas -/

/-- The z3 n-ary `And` holds exactly when every listed formula holds. -/
theorem evalB_and_iff (σ : Nat → Bool) (l : List BoolRef) :
    evalB σ (.and l) = true ↔ ∀ b ∈ l, evalB σ b = true := by
  simp only [evalB, List.all_eq_true]
  constructor
  · intro h b hb
    exact h ⟨b, hb⟩ (List.mem_attach _ _)
  · intro h x hx
    exact h x.1 x.2

/-- The z3 n-ary `Or` holds exactly when some listed formula holds. -/
theorem evalB_or_iff (σ : Nat → Bool) (l : List BoolRef) :
    evalB σ (.or l) = true ↔ ∃ b ∈ l, evalB σ b = true := by
  simp only [evalB, List.any_eq_true]
  constructor
  · rintro ⟨x, hx, hev⟩
    exact ⟨x.1, x.2, hev⟩
  · rintro ⟨b, hb, hev⟩
    exact ⟨⟨b, hb⟩, List.mem_attach _ _, hev⟩

theorem evalB_not_eq (σ : Nat → Bool) (b : BoolRef) :
    evalB σ (.not b) = ! evalB σ b := by
  simp [evalB]

theorem evalB_xor_eq (σ : Nat → Bool) (a b : BoolRef) :
    evalB σ (.xor a b) = (evalB σ a != evalB σ b) := by
  simp [evalB]

theorem evalB_implies_eq (σ : Nat → Bool) (a b : BoolRef) :
    evalB σ (.implies a b) = (! evalB σ a || evalB σ b) := by
  simp [evalB]

theorem evalB_ite_eq (σ : Nat → Bool) (c t e : BoolRef) :
    evalB σ (.ite c t e) = bif evalB σ c then evalB σ t else evalB σ e := by
  simp [evalB]

/-- An assignment satisfies a formula when the formula evaluates to
`true` under it. -/
def sat (σ : Nat → Bool) (f : BoolRef) : Prop := evalB σ f = true

/-! ### Equation lemmas for the combinators -/

theorem not_eq_error (c : PyVal) (ctx : Context) (e : String)
    (h : get_assertions c = .error e) : not_ c ctx = (.error e, ctx) := by
  simp [not_, h]

theorem not_eq_ok (c : PyVal) (ctx : Context) (a : List BoolRef)
    (h : get_assertions c = .ok a) :
    not_ c ctx = (.ok (.not (.and a)),
      ctx.append_z3_assertion (.not (.and a))) := by
  simp [not_, h]

theorem and_eq_error (l : List PyVal) (ctx : Context) (e : String)
    (h : constraints_to_list_of_assertions l = .error e) :
    and_ l ctx = (.error e, ctx) := by
  simp [and_, h]

theorem and_eq_ok (l : List PyVal) (ctx : Context) (a : List BoolRef)
    (h : constraints_to_list_of_assertions l = .ok a) :
    and_ l ctx = (.ok (.and a), ctx.append_z3_assertion (.and a)) := by
  simp [and_, h]

theorem or_eq_error (l : List PyVal) (ctx : Context) (e : String)
    (h : constraints_to_list_of_assertions l = .error e) :
    or_ l ctx = (.error e, ctx) := by
  simp [or_, h]

theorem or_eq_ok (l : List PyVal) (ctx : Context) (a : List BoolRef)
    (h : constraints_to_list_of_assertions l = .ok a) :
    or_ l ctx = (.ok (.or a), ctx.append_z3_assertion (.or a)) := by
  simp [or_, h]

theorem xor_pair_eq_ok (c1 c2 : PyVal) (ctx : Context) (a1 a2 : List BoolRef)
    (h1 : get_assertions c1 = .ok a1) (h2 : get_assertions c2 = .ok a2) :
    xor_ [c1, c2] ctx = (.ok (.xor (.and a1) (.and a2)),
      ctx.append_z3_assertion (.xor (.and a1) (.and a2))) := by
  simp [xor_, h1, h2]

theorem xor_pair_eq_error_left (c1 c2 : PyVal) (ctx : Context) (e : String)
    (h1 : get_assertions c1 = .error e) :
    xor_ [c1, c2] ctx = (.error e, ctx) := by
  simp [xor_, h1]

theorem xor_pair_eq_error_right (c1 c2 : PyVal) (ctx : Context)
    (a1 : List BoolRef) (e : String) (h1 : get_assertions c1 = .ok a1)
    (h2 : get_assertions c2 = .error e) :
    xor_ [c1, c2] ctx = (.error e, ctx) := by
  simp [xor_, h1, h2]

theorem implies_eq_error (cond : BoolRef) (l : List PyVal) (ctx : Context)
    (e : String) (h : constraints_to_list_of_assertions l = .error e) :
    implies cond l ctx = (.error e, ctx) := by
  simp [implies, h]

theorem if_then_else_eq_error_then (cond : BoolRef) (tl el : List PyVal)
    (ctx : Context) (e : String)
    (ht : constraints_to_list_of_assertions tl = .error e) :
    if_then_else cond tl el ctx = (.error e, ctx) := by
  simp [if_then_else, ht]

theorem if_then_else_eq_error_else (cond : BoolRef) (tl el : List PyVal)
    (ctx : Context) (ta : List BoolRef) (e : String)
    (ht : constraints_to_list_of_assertions tl = .ok ta)
    (he : constraints_to_list_of_assertions el = .error e) :
    if_then_else cond tl el ctx = (.error e, ctx) := by
  simp [if_then_else, ht, he]

theorem implies_eq_ok (cond : BoolRef) (l : List PyVal) (ctx : Context)
    (a : List BoolRef) (h : constraints_to_list_of_assertions l = .ok a) :
    implies cond l ctx = (.ok (.implies cond (.and a)),
      ctx.append_z3_assertion (.implies cond (.and a))) := by
  simp [implies, h]

theorem if_then_else_eq_ok (cond : BoolRef) (tl el : List PyVal)
    (ctx : Context) (ta ea : List BoolRef)
    (ht : constraints_to_list_of_assertions tl = .ok ta)
    (he : constraints_to_list_of_assertions el = .ok ea) :
    if_then_else cond tl el ctx = (.ok (.ite cond (.and ta) (.and ea)),
      ctx.append_z3_assertion (.ite cond (.and ta) (.and ea))) := by
  simp [if_then_else, ht, he]

/-! ### Claim theorems -/

/-- C1: for every input list whose length is not exactly 2, `xor_` fails
with the length validity error and leaves the context exactly as it was;
the error is the same whatever the elements are — even elements that would
themselves fail normalization never get normalized, and no exclusive-or
formula is constructed. -/
theorem xor_rejects_wrong_length (l : List PyVal) (ctx : Context)
    (h : l.length ≠ 2) :
    xor_ l ctx =
      (.error "You list size must be 2. Be sure you have 2 constraints in the list.",
        ctx) := by
  match l with
  | [] => rfl
  | [_] => rfl
  | [_, _] => exact absurd rfl h
  | _ :: _ :: _ :: _ => rfl

/-- Witness for C1 at the concrete one-element input `[other]`: the error
is the length error, not the normalization `TypeError`, and the context is
untouched. -/
theorem xor_rejects_wrong_length_witness :
    xor_ [PyVal.other] ⟨[BoolRef.var 0]⟩ =
      (.error "You list size must be 2. Be sure you have 2 constraints in the list.",
        ⟨[BoolRef.var 0]⟩) :=
  xor_rejects_wrong_length [PyVal.other] ⟨[BoolRef.var 0]⟩ (by decide)

/-- C2: every combinator, on a successful call, yields a context whose
formula list is exactly the previous list with the returned formula
appended at the end: exactly one formula is registered, it is the returned
one, and no previously registered formula is removed or modified. -/
theorem combinators_register_exactly_one :
    (∀ c ctx f ctx2, not_ c ctx = (.ok f, ctx2) →
      ctx2.z3_assertions = ctx.z3_assertions ++ [f]) ∧
    (∀ l ctx f ctx2, and_ l ctx = (.ok f, ctx2) →
      ctx2.z3_assertions = ctx.z3_assertions ++ [f]) ∧
    (∀ l ctx f ctx2, or_ l ctx = (.ok f, ctx2) →
      ctx2.z3_assertions = ctx.z3_assertions ++ [f]) ∧
    (∀ l ctx f ctx2, xor_ l ctx = (.ok f, ctx2) →
      ctx2.z3_assertions = ctx.z3_assertions ++ [f]) ∧
    (∀ cond l ctx f ctx2, implies cond l ctx = (.ok f, ctx2) →
      ctx2.z3_assertions = ctx.z3_assertions ++ [f]) ∧
    (∀ cond tl el ctx f ctx2, if_then_else cond tl el ctx = (.ok f, ctx2) →
      ctx2.z3_assertions = ctx.z3_assertions ++ [f]) := by
  refine ⟨?_, ?_, ?_, ?_, ?_, ?_⟩
  · intro c ctx f ctx2 h
    cases hg : get_assertions c with
    | error e => rw [not_eq_error c ctx e hg] at h; simp at h
    | ok a =>
      rw [not_eq_ok c ctx a hg] at h
      simp only [Prod.mk.injEq, Except.ok.injEq] at h
      obtain ⟨rfl, rfl⟩ := h
      rfl
  · intro l ctx f ctx2 h
    cases hg : constraints_to_list_of_assertions l with
    | error e => rw [and_eq_error l ctx e hg] at h; simp at h
    | ok a =>
      rw [and_eq_ok l ctx a hg] at h
      simp only [Prod.mk.injEq, Except.ok.injEq] at h
      obtain ⟨rfl, rfl⟩ := h
      rfl
  · intro l ctx f ctx2 h
    cases hg : constraints_to_list_of_assertions l with
    | error e => rw [or_eq_error l ctx e hg] at h; simp at h
    | ok a =>
      rw [or_eq_ok l ctx a hg] at h
      simp only [Prod.mk.injEq, Except.ok.injEq] at h
      obtain ⟨rfl, rfl⟩ := h
      rfl
  · intro l ctx f ctx2 h
    match l with
    | [] => exact absurd h (by simp [xor_])
    | [_] => exact absurd h (by simp [xor_])
    | _ :: _ :: _ :: _ => exact absurd h (by simp [xor_])
    | [c1, c2] =>
      cases h1 : get_assertions c1 with
      | error e => rw [xor_pair_eq_error_left c1 c2 ctx e h1] at h; simp at h
      | ok a1 =>
        cases h2 : get_assertions c2 with
        | error e =>
          rw [xor_pair_eq_error_right c1 c2 ctx a1 e h1 h2] at h
          simp at h
        | ok a2 =>
          rw [xor_pair_eq_ok c1 c2 ctx a1 a2 h1 h2] at h
          simp only [Prod.mk.injEq, Except.ok.injEq] at h
          obtain ⟨rfl, rfl⟩ := h
          rfl
  · intro cond l ctx f ctx2 h
    cases hg : constraints_to_list_of_assertions l with
    | error e => rw [implies_eq_error cond l ctx e hg] at h; simp at h
    | ok a =>
      rw [implies_eq_ok cond l ctx a hg] at h
      simp only [Prod.mk.injEq, Except.ok.injEq] at h
      obtain ⟨rfl, rfl⟩ := h
      rfl
  · intro cond tl el ctx f ctx2 h
    cases ht : constraints_to_list_of_assertions tl with
    | error e => rw [if_then_else_eq_error_then cond tl el ctx e ht] at h; simp at h
    | ok ta =>
      cases he : constraints_to_list_of_assertions el with
      | error e =>
        rw [if_then_else_eq_error_else cond tl el ctx ta e ht he] at h
        simp at h
      | ok ea =>
        rw [if_then_else_eq_ok cond tl el ctx ta ea ht he] at h
        simp only [Prod.mk.injEq, Except.ok.injEq] at h
        obtain ⟨rfl, rfl⟩ := h
        rfl

/-- Witness for C2: each combinator, run at a concrete input on a context
already holding `var 0`, extends the formula list by exactly its returned
formula. -/
theorem combinators_register_exactly_one_witness :
    (not_ (.boolref (.var 1)) ⟨[.var 0]⟩).2.z3_assertions
        = [.var 0] ++ [BoolRef.not (.and [.var 1])] ∧
    (and_ [.boolref (.var 1)] ⟨[.var 0]⟩).2.z3_assertions
        = [.var 0] ++ [BoolRef.and [.var 1]] ∧
    (or_ [.boolref (.var 1)] ⟨[.var 0]⟩).2.z3_assertions
        = [.var 0] ++ [BoolRef.or [.var 1]] ∧
    (xor_ [.boolref (.var 1), .boolref (.var 2)] ⟨[.var 0]⟩).2.z3_assertions
        = [.var 0] ++ [BoolRef.xor (.and [.var 1]) (.and [.var 2])] ∧
    (implies (.var 1) [.boolref (.var 2)] ⟨[.var 0]⟩).2.z3_assertions
        = [.var 0] ++ [BoolRef.implies (.var 1) (.and [.var 2])] ∧
    (if_then_else (.var 1) [.boolref (.var 2)] [.boolref (.var 3)]
        ⟨[.var 0]⟩).2.z3_assertions
        = [.var 0] ++ [BoolRef.ite (.var 1) (.and [.var 2]) (.and [.var 3])] :=
  ⟨combinators_register_exactly_one.1 (.boolref (.var 1)) ⟨[.var 0]⟩
      (.not (.and [.var 1])) ⟨[.var 0, .not (.and [.var 1])]⟩ rfl,
   combinators_register_exactly_one.2.1 [.boolref (.var 1)] ⟨[.var 0]⟩
      (.and [.var 1]) ⟨[.var 0, .and [.var 1]]⟩ rfl,
   combinators_register_exactly_one.2.2.1 [.boolref (.var 1)] ⟨[.var 0]⟩
      (.or [.var 1]) ⟨[.var 0, .or [.var 1]]⟩ rfl,
   combinators_register_exactly_one.2.2.2.1
      [.boolref (.var 1), .boolref (.var 2)] ⟨[.var 0]⟩
      (.xor (.and [.var 1]) (.and [.var 2]))
      ⟨[.var 0, .xor (.and [.var 1]) (.and [.var 2])]⟩ rfl,
   combinators_register_exactly_one.2.2.2.2.1 (.var 1) [.boolref (.var 2)]
      ⟨[.var 0]⟩ (.implies (.var 1) (.and [.var 2]))
      ⟨[.var 0, .implies (.var 1) (.and [.var 2])]⟩ rfl,
   combinators_register_exactly_one.2.2.2.2.2 (.var 1) [.boolref (.var 2)]
      [.boolref (.var 3)] ⟨[.var 0]⟩
      (.ite (.var 1) (.and [.var 2]) (.and [.var 3]))
      ⟨[.var 0, .ite (.var 1) (.and [.var 2]) (.and [.var 3])]⟩ rfl⟩

/-- C8: whenever a combinator call fails — an element is neither a raw
`BoolRef` nor a `Constraint`, or `xor_` is given a list whose length is
not 2 — the context after the call is exactly the context before it: no
formula is appended by a failing call. -/
theorem failed_calls_leave_context_unchanged :
    (∀ c ctx e ctx2, not_ c ctx = (.error e, ctx2) → ctx2 = ctx) ∧
    (∀ l ctx e ctx2, and_ l ctx = (.error e, ctx2) → ctx2 = ctx) ∧
    (∀ l ctx e ctx2, or_ l ctx = (.error e, ctx2) → ctx2 = ctx) ∧
    (∀ l ctx e ctx2, xor_ l ctx = (.error e, ctx2) → ctx2 = ctx) ∧
    (∀ cond l ctx e ctx2, implies cond l ctx = (.error e, ctx2) → ctx2 = ctx) ∧
    (∀ cond tl el ctx e ctx2,
      if_then_else cond tl el ctx = (.error e, ctx2) → ctx2 = ctx) := by
  refine ⟨?_, ?_, ?_, ?_, ?_, ?_⟩
  · intro c ctx e ctx2 h
    cases hg : get_assertions c with
    | error e2 =>
      rw [not_eq_error c ctx e2 hg] at h
      exact (Prod.mk.injEq .. ▸ h).2.symm
    | ok a => rw [not_eq_ok c ctx a hg] at h; simp at h
  · intro l ctx e ctx2 h
    cases hg : constraints_to_list_of_assertions l with
    | error e2 =>
      rw [and_eq_error l ctx e2 hg] at h
      exact (Prod.mk.injEq .. ▸ h).2.symm
    | ok a => rw [and_eq_ok l ctx a hg] at h; simp at h
  · intro l ctx e ctx2 h
    cases hg : constraints_to_list_of_assertions l with
    | error e2 =>
      rw [or_eq_error l ctx e2 hg] at h
      exact (Prod.mk.injEq .. ▸ h).2.symm
    | ok a => rw [or_eq_ok l ctx a hg] at h; simp at h
  · intro l ctx e ctx2 h
    match l with
    | [] => exact ((Prod.mk.injEq .. ▸ h).2).symm
    | [_] => exact ((Prod.mk.injEq .. ▸ h).2).symm
    | _ :: _ :: _ :: _ => exact ((Prod.mk.injEq .. ▸ h).2).symm
    | [c1, c2] =>
      cases h1 : get_assertions c1 with
      | error e2 =>
        rw [xor_pair_eq_error_left c1 c2 ctx e2 h1] at h
        exact (Prod.mk.injEq .. ▸ h).2.symm
      | ok a1 =>
        cases h2 : get_assertions c2 with
        | error e2 =>
          rw [xor_pair_eq_error_right c1 c2 ctx a1 e2 h1 h2] at h
          exact (Prod.mk.injEq .. ▸ h).2.symm
        | ok a2 => rw [xor_pair_eq_ok c1 c2 ctx a1 a2 h1 h2] at h; simp at h
  · intro cond l ctx e ctx2 h
    cases hg : constraints_to_list_of_assertions l with
    | error e2 =>
      rw [implies_eq_error cond l ctx e2 hg] at h
      exact (Prod.mk.injEq .. ▸ h).2.symm
    | ok a => rw [implies_eq_ok cond l ctx a hg] at h; simp at h
  · intro cond tl el ctx e ctx2 h
    cases ht : constraints_to_list_of_assertions tl with
    | error e2 =>
      rw [if_then_else_eq_error_then cond tl el ctx e2 ht] at h
      exact (Prod.mk.injEq .. ▸ h).2.symm
    | ok ta =>
      cases he : constraints_to_list_of_assertions el with
      | error e2 =>
        rw [if_then_else_eq_error_else cond tl el ctx ta e2 ht he] at h
        exact (Prod.mk.injEq .. ▸ h).2.symm
      | ok ea => rw [if_then_else_eq_ok cond tl el ctx ta ea ht he] at h; simp at h

/-- Witness for C8: each combinator, failing at a concrete invalid input
(the non-formula value `other`, or a too-short list for `xor_`), leaves
the concrete context `⟨[var 0]⟩` unchanged. -/
theorem failed_calls_leave_context_unchanged_witness :
    (not_ .other ⟨[.var 0]⟩).2 = (⟨[.var 0]⟩ : Context) ∧
    (and_ [.other] ⟨[.var 0]⟩).2 = (⟨[.var 0]⟩ : Context) ∧
    (or_ [.other] ⟨[.var 0]⟩).2 = (⟨[.var 0]⟩ : Context) ∧
    (xor_ [] ⟨[.var 0]⟩).2 = (⟨[.var 0]⟩ : Context) ∧
    (implies (.var 1) [.other] ⟨[.var 0]⟩).2 = (⟨[.var 0]⟩ : Context) ∧
    (if_then_else (.var 1) [.other] [] ⟨[.var 0]⟩).2 = (⟨[.var 0]⟩ : Context) :=
  ⟨failed_calls_leave_context_unchanged.1 .other ⟨[.var 0]⟩
      "constraint must either be a Constraint or BoolRef instance"
      ⟨[.var 0]⟩ rfl,
   failed_calls_leave_context_unchanged.2.1 [.other] ⟨[.var 0]⟩
      "constraint must either be a Constraint or BoolRef instance"
      ⟨[.var 0]⟩ rfl,
   failed_calls_leave_context_unchanged.2.2.1 [.other] ⟨[.var 0]⟩
      "constraint must either be a Constraint or BoolRef instance"
      ⟨[.var 0]⟩ rfl,
   failed_calls_leave_context_unchanged.2.2.2.1 [] ⟨[.var 0]⟩
      "You list size must be 2. Be sure you have 2 constraints in the list."
      ⟨[.var 0]⟩ rfl,
   failed_calls_leave_context_unchanged.2.2.2.2.1 (.var 1) [.other]
      ⟨[.var 0]⟩
      "constraint must either be a Constraint or BoolRef instance"
      ⟨[.var 0]⟩ rfl,
   failed_calls_leave_context_unchanged.2.2.2.2.2 (.var 1) [.other] []
      ⟨[.var 0]⟩
      "constraint must either be a Constraint or BoolRef instance"
      ⟨[.var 0]⟩ rfl⟩

/-- C3: for every argument that is a raw boolean formula or a constraint
object — i.e. whose normalization succeeds with formula list `a` — `not_`
returns and registers `Not(And(a))`, and an assignment satisfies that
formula exactly when not all of the argument's formulas hold under it. -/
theorem not_negates_conjunction (c : PyVal) (ctx : Context)
    (a : List BoolRef) (h : get_assertions c = .ok a) (σ : Nat → Bool) :
    not_ c ctx = (.ok (.not (.and a)),
      ctx.append_z3_assertion (.not (.and a))) ∧
    (sat σ (.not (.and a)) ↔ ¬ ∀ b ∈ a, sat σ b) := by
  refine ⟨not_eq_ok c ctx a h, ?_⟩
  simp only [sat, evalB_not_eq, Bool.not_eq_true', ← evalB_and_iff σ a]
  exact Bool.eq_false_iff

/-- Witness for C3: `not_` applied to a constraint carrying two formulas,
on the empty context, under the all-false assignment. -/
theorem not_negates_conjunction_witness :
    not_ (.constraint ⟨[.var 0, .var 1], false⟩) ⟨[]⟩
      = (.ok (.not (.and [.var 0, .var 1])), ⟨[.not (.and [.var 0, .var 1])]⟩) ∧
    (sat (fun _ => false) (.not (.and [.var 0, .var 1])) ↔
      ¬ ∀ b ∈ [BoolRef.var 0, BoolRef.var 1], sat (fun _ => false) b) :=
  not_negates_conjunction (.constraint ⟨[.var 0, .var 1], false⟩) ⟨[]⟩
    [.var 0, .var 1] rfl (fun _ => false)

/-- C4: for every list whose normalization-and-flattening succeeds with
formula list `a`, `and_` returns and registers `And(a)`, satisfied exactly
when every formula of `a` holds, and `or_` returns and registers `Or(a)`,
satisfied exactly when at least one formula of `a` holds. -/
theorem and_or_semantics (l : List PyVal) (ctx : Context)
    (a : List BoolRef) (h : constraints_to_list_of_assertions l = .ok a)
    (σ : Nat → Bool) :
    (and_ l ctx = (.ok (.and a), ctx.append_z3_assertion (.and a)) ∧
      (sat σ (.and a) ↔ ∀ b ∈ a, sat σ b)) ∧
    (or_ l ctx = (.ok (.or a), ctx.append_z3_assertion (.or a)) ∧
      (sat σ (.or a) ↔ ∃ b ∈ a, sat σ b)) :=
  ⟨⟨and_eq_ok l ctx a h, evalB_and_iff σ a⟩,
   ⟨or_eq_ok l ctx a h, evalB_or_iff σ a⟩⟩

/-- Witness for C4: a two-element mixed list (a raw formula and a
constraint), on the empty context, under the all-true assignment. -/
theorem and_or_semantics_witness :
    (and_ [.boolref (.var 0), .constraint ⟨[.var 1], false⟩] ⟨[]⟩
        = (.ok (.and [.var 0, .var 1]), ⟨[.and [.var 0, .var 1]]⟩) ∧
      (sat (fun _ => true) (.and [.var 0, .var 1]) ↔
        ∀ b ∈ [BoolRef.var 0, BoolRef.var 1], sat (fun _ => true) b)) ∧
    (or_ [.boolref (.var 0), .constraint ⟨[.var 1], false⟩] ⟨[]⟩
        = (.ok (.or [.var 0, .var 1]), ⟨[.or [.var 0, .var 1]]⟩) ∧
      (sat (fun _ => true) (.or [.var 0, .var 1]) ↔
        ∃ b ∈ [BoolRef.var 0, BoolRef.var 1], sat (fun _ => true) b)) :=
  and_or_semantics [.boolref (.var 0), .constraint ⟨[.var 1], false⟩] ⟨[]⟩
    [.var 0, .var 1] rfl (fun _ => true)

/-- C5: for every two-element list whose elements normalize to formula
lists `a1` and `a2`, `xor_` returns and registers
`Xor(And(a1), And(a2))`, and an assignment satisfies it exactly when it
makes exactly one of the two conjunctions true. -/
theorem xor_exactly_one_of_two (c1 c2 : PyVal) (ctx : Context)
    (a1 a2 : List BoolRef) (h1 : get_assertions c1 = .ok a1)
    (h2 : get_assertions c2 = .ok a2) (σ : Nat → Bool) :
    xor_ [c1, c2] ctx = (.ok (.xor (.and a1) (.and a2)),
      ctx.append_z3_assertion (.xor (.and a1) (.and a2))) ∧
    (sat σ (.xor (.and a1) (.and a2)) ↔
      (((∀ b ∈ a1, sat σ b) ∧ ¬ ∀ b ∈ a2, sat σ b) ∨
       ((∀ b ∈ a2, sat σ b) ∧ ¬ ∀ b ∈ a1, sat σ b))) := by
  refine ⟨xor_pair_eq_ok c1 c2 ctx a1 a2 h1 h2, ?_⟩
  simp only [sat, evalB_xor_eq, ← evalB_and_iff σ a1, ← evalB_and_iff σ a2]
  cases hx : evalB σ (.and a1) <;> cases hy : evalB σ (.and a2) <;> simp

/-- Witness for C5: two raw formulas, on the empty context, under the
assignment making only variable 0 true — exactly the first conjunct
holds, and the built exclusive-or is satisfied. -/
theorem xor_exactly_one_of_two_witness :
    xor_ [.boolref (.var 0), .boolref (.var 1)] ⟨[]⟩
      = (.ok (.xor (.and [.var 0]) (.and [.var 1])),
         ⟨[.xor (.and [.var 0]) (.and [.var 1])]⟩) ∧
    (sat (fun n => n == 0) (.xor (.and [.var 0]) (.and [.var 1])) ↔
      (((∀ b ∈ [BoolRef.var 0], sat (fun n => n == 0) b) ∧
         ¬ ∀ b ∈ [BoolRef.var 1], sat (fun n => n == 0) b) ∨
       ((∀ b ∈ [BoolRef.var 1], sat (fun n => n == 0) b) ∧
         ¬ ∀ b ∈ [BoolRef.var 0], sat (fun n => n == 0) b))) :=
  xor_exactly_one_of_two (.boolref (.var 0)) (.boolref (.var 1)) ⟨[]⟩
    [.var 0] [.var 1] rfl rfl (fun n => n == 0)

/-- C6: for every raw-formula condition and every consequence list whose
normalization succeeds with formula list `a`, `implies` returns and
registers `Implies(condition, And(a))` — the condition appears in the
result unchanged, never routed through the normalization path — and an
assignment satisfies the result exactly when, if it satisfies the
condition, it satisfies every formula of `a`. -/
theorem implies_builds_implication (cond : BoolRef) (l : List PyVal)
    (ctx : Context) (a : List BoolRef)
    (h : constraints_to_list_of_assertions l = .ok a) (σ : Nat → Bool) :
    implies cond l ctx = (.ok (.implies cond (.and a)),
      ctx.append_z3_assertion (.implies cond (.and a))) ∧
    (sat σ (.implies cond (.and a)) ↔
      (sat σ cond → ∀ b ∈ a, sat σ b)) := by
  refine ⟨implies_eq_ok cond l ctx a h, ?_⟩
  simp only [sat, evalB_implies_eq, ← evalB_and_iff σ a]
  cases hx : evalB σ cond <;> cases hy : evalB σ (.and a) <;> simp

/-- Witness for C6: condition `var 0`, one consequence constraint, empty
context, all-false assignment (the implication holds vacuously). -/
theorem implies_builds_implication_witness :
    implies (.var 0) [.constraint ⟨[.var 1], false⟩] ⟨[]⟩
      = (.ok (.implies (.var 0) (.and [.var 1])),
         ⟨[.implies (.var 0) (.and [.var 1])]⟩) ∧
    (sat (fun _ => false) (.implies (.var 0) (.and [.var 1])) ↔
      (sat (fun _ => false) (.var 0) →
        ∀ b ∈ [BoolRef.var 1], sat (fun _ => false) b)) :=
  implies_builds_implication (.var 0) [.constraint ⟨[.var 1], false⟩] ⟨[]⟩
    [.var 1] rfl (fun _ => false)

/-- C7: for every raw-formula condition and every pair of lists whose
normalizations succeed with formula lists `ta` and `ea`, `if_then_else`
returns and registers `If(condition, And(ta), And(ea))`, which under any
assignment satisfying the condition evaluates exactly as the conjunction
of the then-list's formulas, and under any assignment falsifying the
condition evaluates exactly as the conjunction of the else-list's
formulas. -/
theorem if_then_else_builds_conditional (cond : BoolRef) (tl el : List PyVal)
    (ctx : Context) (ta ea : List BoolRef)
    (ht : constraints_to_list_of_assertions tl = .ok ta)
    (he : constraints_to_list_of_assertions el = .ok ea) (σ : Nat → Bool) :
    if_then_else cond tl el ctx = (.ok (.ite cond (.and ta) (.and ea)),
      ctx.append_z3_assertion (.ite cond (.and ta) (.and ea))) ∧
    (evalB σ cond = true →
      evalB σ (.ite cond (.and ta) (.and ea)) = evalB σ (.and ta)) ∧
    (evalB σ cond = false →
      evalB σ (.ite cond (.and ta) (.and ea)) = evalB σ (.and ea)) := by
  refine ⟨if_then_else_eq_ok cond tl el ctx ta ea ht he, ?_, ?_⟩
  · intro hc
    rw [evalB_ite_eq, hc]
    rfl
  · intro hc
    rw [evalB_ite_eq, hc]
    rfl

/-- Witness for C7: condition `var 0`, singleton then/else lists, empty
context, under the assignment making only variable 0 true. -/
theorem if_then_else_builds_conditional_witness :
    if_then_else (.var 0) [.boolref (.var 1)] [.boolref (.var 2)] ⟨[]⟩
      = (.ok (.ite (.var 0) (.and [.var 1]) (.and [.var 2])),
         ⟨[.ite (.var 0) (.and [.var 1]) (.and [.var 2])]⟩) ∧
    (evalB (fun n => n == 0) (.var 0) = true →
      evalB (fun n => n == 0) (.ite (.var 0) (.and [.var 1]) (.and [.var 2]))
        = evalB (fun n => n == 0) (.and [.var 1])) ∧
    (evalB (fun n => n == 0) (.var 0) = false →
      evalB (fun n => n == 0) (.ite (.var 0) (.and [.var 1]) (.and [.var 2]))
        = evalB (fun n => n == 0) (.and [.var 2])) :=
  if_then_else_builds_conditional (.var 0) [.boolref (.var 1)]
    [.boolref (.var 2)] ⟨[]⟩ [.var 1] [.var 2] rfl rfl (fun n => n == 0)

/-- C9: constructing a `FixedDurationTask` with a duration that is zero or
negative, or that is not an integer, fails and no task is constructed;
constructing it with a strictly positive integer duration (and the default
work amount 0) succeeds. -/
theorem fixed_duration_task_validation :
    (∀ name d w, d ≤ 0 →
      ∃ e, mkFixedDurationTask name (.int d) w = .error e) ∧
    (∀ name w, ∃ e, mkFixedDurationTask name .nonint w = .error e) ∧
    (∀ name d, 0 < d →
      mkFixedDurationTask name (.int d) (.int 0) = .ok ⟨name, d, 0⟩) := by
  refine ⟨?_, ?_, ?_⟩
  · intro name d w hd
    refine ⟨"duration must be a strictly positive integer", ?_⟩
    have hd1 : d < 1 := by omega
    simp [mkFixedDurationTask, hd1]
  · intro name w
    exact ⟨"duration must be a strictly positive integer", rfl⟩
  · intro name d hd
    have hd1 : ¬ d < 1 := by omega
    simp [mkFixedDurationTask, hd1]

/-- Witness for C9 at the inputs of `test_create_task_fixed_duration`:
duration `-1` and `0` fail, a non-integer duration fails, duration `1`
succeeds. -/
theorem fixed_duration_task_validation_witness :
    (∃ e, mkFixedDurationTask "NegativeInteger" (.int (-1)) (.int 0)
        = .error e) ∧
    (∃ e, mkFixedDurationTask "NullInteger" (.int 0) (.int 0) = .error e) ∧
    (∃ e, mkFixedDurationTask "FloatDuration" .nonint (.int 0) = .error e) ∧
    mkFixedDurationTask "fdt" (.int 1) (.int 0) = .ok ⟨"fdt", 1, 0⟩ :=
  ⟨fixed_duration_task_validation.1 "NegativeInteger" (-1) (.int 0) (by decide),
   fixed_duration_task_validation.1 "NullInteger" 0 (.int 0) (by decide),
   fixed_duration_task_validation.2.1 "FloatDuration" (.int 0),
   fixed_duration_task_validation.2.2 "fdt" 1 (by decide)⟩

/-- C10: on the empty list neither `and_` nor `or_` fails: `and_ []`
registers and returns the empty conjunction, true under every assignment,
while `or_ []` registers and returns the empty disjunction, false under
every assignment — so after `or_ []` the conjunction of the context's
accumulated assertions is false under every assignment. -/
theorem empty_and_or (ctx : Context) (σ : Nat → Bool) :
    (and_ [] ctx = (.ok (.and []), ctx.append_z3_assertion (.and [])) ∧
      evalB σ (.and []) = true) ∧
    (or_ [] ctx = (.ok (.or []), ctx.append_z3_assertion (.or [])) ∧
      evalB σ (.or []) = false ∧
      evalB σ (.and (or_ [] ctx).2.z3_assertions) = false) := by
  have hor : evalB σ (.or []) = false := by
    apply Bool.eq_false_iff.mpr
    intro hcon
    rcases (evalB_or_iff σ []).mp hcon with ⟨b, hb, _⟩
    exact absurd hb (List.not_mem_nil b)
  refine ⟨⟨and_eq_ok [] ctx [] rfl, ?_⟩, or_eq_ok [] ctx [] rfl, hor, ?_⟩
  · exact (evalB_and_iff σ []).mpr (by intro b hb; exact absurd hb (List.not_mem_nil b))
  · apply Bool.eq_false_iff.mpr
    intro hcon
    have hmem : BoolRef.or [] ∈ (or_ [] ctx).2.z3_assertions := by
      rw [or_eq_ok [] ctx [] rfl]
      exact List.mem_append_right _ (List.mem_singleton.mpr rfl)
    have := (evalB_and_iff σ _).mp hcon _ hmem
    rw [hor] at this
    exact Bool.false_ne_true this

/-- Witness for C10 on the empty context under the all-true assignment. -/
theorem empty_and_or_witness :
    (and_ [] ⟨[]⟩ = (.ok (.and []), ⟨[.and []]⟩) ∧
      evalB (fun _ => true) (.and []) = true) ∧
    (or_ [] ⟨[]⟩ = (.ok (.or []), ⟨[.or []]⟩) ∧
      evalB (fun _ => true) (.or []) = false ∧
      evalB (fun _ => true) (.and (or_ [] ⟨[]⟩).2.z3_assertions) = false) :=
  empty_and_or ⟨[]⟩ (fun _ => true)

end ProcessScheduler
